import Mathlib

/-!
Shallow embedding of the `basic_training_container` notebook
(src/custom-training-continer/notebook/.ipynb_checkpoints/
basic_training_container-checkpoint.ipynb).

The notebook is a linear script: resolve the environment (execution role,
account id, region, default bucket), shell out to `build_and_push.sh`,
compose the ECR image URI with `str.format`, build an S3-channel estimator
and submit it, then build two EFS `FileSystemInput` channels and submit an
EFS-channel estimator.  External effects (credential lookup, the shell,
the training service) are modelled as an oracle record `World`; the flow
records a trace of the external calls it makes.
-/

namespace Notebook

/-! ### Python `str.format` restricted to `{n}` replacement fields

The notebook's only format call is
`"{0}.dkr.ecr.{1}.amazonaws.com/{2}:latest".format(account_id, region, ecr_repository_name)`.
We model `str.format` for templates whose replacement fields are decimal
indices (no `{}`, `{name}`, `{{` escapes — the template used has none).
A missing argument index or an unclosed field yields `none`
(Python raises). -/

def openBrace : Char := Char.ofNat 123

def closeBrace : Char := Char.ofNat 125

/-- Tokenise a format template: literal characters become `Sum.inl`,
replacement fields `Sum.inr n`.  The first argument is `some acc` while
inside a replacement field whose digits read so far denote `acc`. -/
def parseFmt : Option Nat → List Char → Option (List (Sum (List Char) Nat))
  | none, [] => some []
  | some _, [] => none
  | none, c :: rest =>
      if c = openBrace then parseFmt (some 0) rest
      else (parseFmt none rest).map (fun ts => Sum.inl [c] :: ts)
  | some n, c :: rest =>
      if c = closeBrace then (parseFmt none rest).map (fun ts => Sum.inr n :: ts)
      else if c.isDigit then parseFmt (some (n * 10 + (c.toNat - 48))) rest
      else none

/-- Render a token list against the positional arguments. -/
def renderTokens : List (Sum (List Char) Nat) → List String → Option (List Char)
  | [], _ => some []
  | Sum.inl cs :: ts, args => (renderTokens ts args).map (fun t => cs ++ t)
  | Sum.inr n :: ts, args =>
      match args[n]? with
      | none => none
      | some s => (renderTokens ts args).map (fun t => s.data ++ t)

/-- `template.format(*args)` for `{n}`-style templates. -/
def pyFormat (template : String) (args : List String) : Option String :=
  match parseFmt none template.data with
  | none => none
  | some ts => (renderTokens ts args).map String.mk

/-! ### Notebook configuration values -/

def ecr_namespace : String := "sagemaker-training-containers/"

/-- The notebook's `prefix` variable (`prefix` is not a legal Lean name). -/
def pfx : String := "basic-training-container"

def ecr_repository_name : String := ecr_namespace ++ pfx

/-- `container_image_uri = "{0}.dkr.ecr.{1}.amazonaws.com/{2}:latest".format(account_id, region, ecr_repository_name)` -/
def container_image_uri (account_id region repository : String) : Option String :=
  pyFormat "{0}.dkr.ecr.{1}.amazonaws.com/{2}:latest" [account_id, region, repository]

/-- Python `str.split` with a single-character separator: splits on every
occurrence, keeping empty fields; the empty string yields `[""]`. -/
def splitOnChar (sep : Char) : List Char → List (List Char)
  | [] => [[]]
  | c :: rest =>
      if c = sep then [] :: splitOnChar sep rest
      else
        match splitOnChar sep rest with
        | [] => [[c]]
        | h :: t => (c :: h) :: t

/-- `role.split(':')` -/
def pySplitColon (s : String) : List String :=
  (splitOnChar ':' s.data).map String.mk

/-- `account_id = role.split(':')[4]`; Python raises `IndexError` when the
split has fewer than five fields, modelled as `Except.error "IndexError"`. -/
def resolveAccountId (role : String) : Except String String :=
  match (pySplitColon role)[4]? with
  | some a => Except.ok a
  | none => Except.error "IndexError"

/-! ### Job-specification data model -/

/-- A hyperparameter scalar as written in the notebook: a string, an
integer, or a decimal literal `mantissa * 10 ^ (-exp)` (the notebook's
`0.001` is `dec 1 3`; the value is passed through, never computed with). -/
inductive HPValue
  | str (v : String)
  | int (v : Int)
  | dec (mantissa : Int) (exp : Nat)
deriving DecidableEq

/-- The estimator configuration, with the constructor arguments used by the
notebook's two `sagemaker.estimator.Estimator(...)` calls. -/
structure Estimator where
  image_uri : String
  role : String
  train_instance_count : Nat
  train_instance_type : String
  base_job_name : String
  subnets : Option (List String)
  security_group_ids : Option (List String)
  hyperparameters : List (String × HPValue)
deriving DecidableEq

/-- `sagemaker.estimator.Estimator(image_uri, role, train_instance_count,
train_instance_type, base_job_name, subnets, security_group_ids)`;
hyperparameters start empty. -/
def mkEstimator (image_uri role : String) (train_instance_count : Nat)
    (train_instance_type base_job_name : String)
    (subnets security_group_ids : Option (List String)) : Estimator :=
  ⟨image_uri, role, train_instance_count, train_instance_type, base_job_name,
    subnets, security_group_ids, []⟩

/-- `est.set_hyperparameters(...)`: stores the given mapping on the estimator. -/
def set_hyperparameters (e : Estimator) (hp : List (String × HPValue)) : Estimator :=
  { e with hyperparameters := hp }

/-- The EFS channel record built by `sagemaker.inputs.FileSystemInput`. -/
structure FileSystemInput where
  file_system_id : String
  file_system_type : String
  directory_path : String
  file_system_access_mode : String
deriving DecidableEq

/-- Modelled from the spec: the `FileSystemInput` constructor of the
SageMaker SDK is not part of this repository (the notebook only calls it).
Per the spec, the access mode is restricted to exactly read-only (`"ro"`)
and read-write (`"rw"`) and any other value fails construction before
submission; no other local validation is performed, in particular the
directory path is stored unchanged. -/
def mkFileSystemInput (file_system_id file_system_type directory_path
    file_system_access_mode : String) : Except String FileSystemInput :=
  if file_system_access_mode = "ro" ∨ file_system_access_mode = "rw" then
    Except.ok ⟨file_system_id, file_system_type, directory_path, file_system_access_mode⟩
  else
    Except.error "ValueError"

/-- A named training input channel: either an S3 location with a content
type (`sagemaker.session.s3_input`) or a shared-filesystem input. -/
inductive InputChannel
  | s3Data (uri content_type : String)
  | fileSystem (f : FileSystemInput)
deriving DecidableEq

/-- The job specification submitted by `est.fit(...)` /
`CreateTrainingJob`. -/
structure TrainingJobRequest where
  image_uri : String
  role : String
  instance_count : Nat
  instance_type : String
  base_job_name : String
  subnets : Option (List String)
  security_group_ids : Option (List String)
  hyperparameters : List (String × HPValue)
  input_channels : List (String × InputChannel)
deriving DecidableEq

/-- Modelled from the spec: `est.fit(inputs)` (SDK code, not in this
repository) constructs the job specification from the estimator's
configuration, carrying the hyperparameter mapping unmodified together
with the given input channels, and submits it to the remote service. -/
def fit (e : Estimator) (inputs : List (String × InputChannel)) : TrainingJobRequest :=
  ⟨e.image_uri, e.role, e.train_instance_count, e.train_instance_type,
    e.base_job_name, e.subnets, e.security_group_ids, e.hyperparameters, inputs⟩

/-! ### The notebook's concrete configuration -/

/-- `est.set_hyperparameters(hp1="value1", hp2=300, hp3=0.001)` -/
def notebookHyperparameters : List (String × HPValue) :=
  [("hp1", HPValue.str "value1"), ("hp2", HPValue.int 300), ("hp3", HPValue.dec 1 3)]

def security_group_ids : List String := ["sg-0c21b70b7f1480a4e"]

def subnets : List String := ["subnet-0370146357224ed30"]

/-- The first estimator (S3 channels): no subnets or security groups. -/
def s3Estimator (uri role : String) : Estimator :=
  set_hyperparameters
    (mkEstimator uri role 1 "ml.m5.xlarge" pfx none none)
    notebookHyperparameters

/-- The second estimator (EFS channels): additionally sets `subnets` and
`security_group_ids`. -/
def efsEstimator (uri role : String) : Estimator :=
  set_hyperparameters
    (mkEstimator uri role 1 "ml.m5.xlarge" pfx (some subnets) (some security_group_ids))
    notebookHyperparameters

/-- `train_config` and `val_config`: the S3 input channels of the first job. -/
def s3Channels : List (String × InputChannel) :=
  [("train", InputChannel.s3Data "s3://landsat-pds/L8/001/002/LC80010022016230LGN00/" "image/jpeg"),
   ("validation", InputChannel.s3Data "s3://landsat-pds/L8/001/002/LC80010022016246LGN00/" "image/jpeg")]

def file_system_id : String := "fs-df51afdb"

def file_system_type : String := "EFS"

/-- The notebook's `train` FileSystemInput. -/
def trainFsInput : Except String FileSystemInput :=
  mkFileSystemInput file_system_id file_system_type "/LC80010022016230LGN00" "ro"

/-- The notebook's `validation` FileSystemInput. -/
def validationFsInput : Except String FileSystemInput :=
  mkFileSystemInput file_system_id file_system_type "/LC80010022016246LGN00" "ro"

/-! ### The external world and the linear flow

The notebook's effects on the outside world — `get_execution_role()`,
`boto3.Session().region_name`, `default_bucket()`, the
`build_and_push.sh` shell call, and `CreateTrainingJob` — are opaque
external calls.  `World` gives each one as an oracle.  The Python API
calls can raise, so they return `Except String`; the build script is run
with the IPython `!` shell escape under `%%capture`, which never raises a
Python exception — a nonzero exit status is silently ignored and the
output is captured and hidden — so its oracle is a total function
returning the exit status and the captured output.  `flow` threads the
oracles in notebook cell order and records a trace of the calls it
actually performs. -/

/-- One external call performed by the notebook. -/
inductive Call
  | getRole
  | getRegion
  | getBucket
  | shell (cmd : List String)
  | submit (req : TrainingJobRequest)
deriving DecidableEq

/-- The three positional arguments passed to `build_and_push.sh`:
`$account_id $region $ecr_repository_name`, in that order. -/
def build_and_push_args (account_id region repository : String) : List String :=
  [account_id, region, repository]

/-- The full shell command
`! ../scripts/build_and_push.sh $account_id $region $ecr_repository_name`. -/
def buildCommand (account_id region repository : String) : List String :=
  "../scripts/build_and_push.sh" :: build_and_push_args account_id region repository

/-- The oracles for the notebook's external collaborators.
`build_and_push` is total (exit status, captured output): the IPython `!`
escape cannot raise. -/
structure World where
  get_execution_role : Except String String
  region_name : Except String String
  default_bucket : Except String String
  build_and_push : List String → Nat × String
  create_training_job : TrainingJobRequest → Except String String

/-- The notebook's linear flow, in cell order: resolve role, derive the
account id from the role string, resolve region and default bucket, shell
out to `build_and_push.sh`, compose the image URI, build and submit the
S3-channel job, construct the two EFS channels, build and submit the
EFS-channel job.  The build script runs under `%%capture`: its exit
status and output are discarded and the flow continues unconditionally —
a failed build does not stop the notebook.  Display-only shell lines
(`pygmentize`, `yum install`, `echo $HOME`) and the commented-out cells
are omitted: they neither read nor produce any program value.  The first
component is the trace of value-carrying external calls performed; the
second is the result: the first Python exception raised, or the response
of the final job submission.  No exception is caught or retried; once one
is raised, nothing later runs. -/
def flow (w : World) : List Call × Except String String :=
  match w.get_execution_role with
  | Except.error e => ([Call.getRole], Except.error e)
  | Except.ok role =>
    match resolveAccountId role with
    | Except.error e => ([Call.getRole], Except.error e)
    | Except.ok account_id =>
      match w.region_name with
      | Except.error e => ([Call.getRole, Call.getRegion], Except.error e)
      | Except.ok region =>
        match w.default_bucket with
        | Except.error e =>
            ([Call.getRole, Call.getRegion, Call.getBucket], Except.error e)
        | Except.ok _bucket =>
          let _captured := w.build_and_push (buildCommand account_id region ecr_repository_name)
          match container_image_uri account_id region ecr_repository_name with
          | none =>
              ([Call.getRole, Call.getRegion, Call.getBucket,
                Call.shell (buildCommand account_id region ecr_repository_name)],
               Except.error "IndexError")
          | some uri =>
            let req1 := fit (s3Estimator uri role) s3Channels
            match w.create_training_job req1 with
            | Except.error e =>
                ([Call.getRole, Call.getRegion, Call.getBucket,
                  Call.shell (buildCommand account_id region ecr_repository_name),
                  Call.submit req1],
                 Except.error e)
            | Except.ok _ =>
              match trainFsInput, validationFsInput with
              | Except.ok trainFs, Except.ok validationFs =>
                let req2 := fit (efsEstimator uri role)
                    [("train", InputChannel.fileSystem trainFs),
                     ("validation", InputChannel.fileSystem validationFs)]
                match w.create_training_job req2 with
                | Except.error e =>
                    ([Call.getRole, Call.getRegion, Call.getBucket,
                      Call.shell (buildCommand account_id region ecr_repository_name),
                      Call.submit req1, Call.submit req2],
                     Except.error e)
                | Except.ok r2 =>
                    ([Call.getRole, Call.getRegion, Call.getBucket,
                      Call.shell (buildCommand account_id region ecr_repository_name),
                      Call.submit req1, Call.submit req2],
                     Except.ok r2)
              | _, _ =>
                  ([Call.getRole, Call.getRegion, Call.getBucket,
                    Call.shell (buildCommand account_id region ecr_repository_name),
                    Call.submit req1],
                   Except.error "ValueError")

/-- The shell commands appearing in a trace. -/
def shellCalls (t : List Call) : List (List String) :=
  t.filterMap (fun c => match c with | Call.shell cmd => some cmd | _ => none)

/-- The job specifications submitted in a trace. -/
def submitCalls (t : List Call) : List TrainingJobRequest :=
  t.filterMap (fun c => match c with | Call.submit req => some req | _ => none)

/-! ### Concrete worlds used by the witnesses -/

/-- A world in which every external call succeeds. -/
def okWorld : World :=
  ⟨Except.ok "arn:aws:iam::123456789012:role/SageMakerRole", Except.ok "us-east-1",
    Except.ok "sagemaker-bucket", fun _ => (0, ""),
    fun _ => Except.ok "Completed"⟩

/-- A world whose execution-role ARN has fewer than five colon fields. -/
def shortRoleWorld : World :=
  { okWorld with get_execution_role := Except.ok "arn:aws:iam" }

/-- A world in which credential resolution fails. -/
def roleErrWorld : World :=
  { okWorld with get_execution_role := Except.error "NoCredentialsError" }

/-- A world in which the build-and-push script exits with a nonzero
status: under the IPython `!` escape this raises nothing. -/
def buildFailWorld : World :=
  { okWorld with build_and_push := fun _ => (1, "docker build failed") }

/-- A world in which remote job submission fails. -/
def submitErrWorld : World :=
  { okWorld with create_training_job := fun _ => Except.error "ClientError" }

/-! ### Helper lemmas -/

/-- Evaluating the format template: the image reference is the literal
concatenation of the three arguments with the fixed infixes. -/
theorem container_image_uri_eq (a r n : String) :
    container_image_uri a r n =
      some (a ++ ".dkr.ecr." ++ r ++ ".amazonaws.com/" ++ n ++ ":latest") := by
  have h : container_image_uri a r n =
      some (a ++ (".dkr.ecr." ++ (r ++ (".amazonaws.com/" ++ (n ++ ":latest"))))) := rfl
  rw [h, ← String.append_assoc, ← String.append_assoc, ← String.append_assoc,
    ← String.append_assoc]

/-! ### Claims -/

/-- C1: for every account id, region and repository name, the image
reference produced by the publisher stage equals the literal concatenation
`account ++ ".dkr.ecr." ++ region ++ ".amazonaws.com/" ++ repository ++ ":latest"`;
it is a pure function of exactly these three strings, so it does not
depend on whether the push succeeded. -/
theorem c1_image_reference_composition (account region repository : String) :
    container_image_uri account region repository =
      some (account ++ ".dkr.ecr." ++ region ++ ".amazonaws.com/" ++ repository ++ ":latest") :=
  container_image_uri_eq account region repository

/-- C2: on the concrete inputs account `123456789012`, region `us-east-1`
and the notebook repository name, the composition returns exactly the
expected fully qualified reference. -/
theorem c2_image_reference_example :
    ecr_repository_name = "sagemaker-training-containers/basic-training-container"
    ∧ container_image_uri "123456789012" "us-east-1"
        "sagemaker-training-containers/basic-training-container" =
      some "123456789012.dkr.ecr.us-east-1.amazonaws.com/sagemaker-training-containers/basic-training-container:latest" :=
  ⟨rfl, rfl⟩

/-- C3: constructing a shared-filesystem channel succeeds exactly when the
access mode is read-only (`"ro"`) or read-write (`"rw"`); any other value
fails construction. -/
theorem c3_access_mode_restricted (fsid fstype path mode : String) :
    (∃ f, mkFileSystemInput fsid fstype path mode = Except.ok f) ↔
      (mode = "ro" ∨ mode = "rw") := by
  unfold mkFileSystemInput
  by_cases h : mode = "ro" ∨ mode = "rw"
  · simp [h]
  · simp [h]

/-- C4: submitting a job specification preserves the hyperparameter
mapping that was set, key for key and value for value; in particular the
notebook jobs carry exactly `hp1 = "value1"`, `hp2 = 300`, `hp3 = 0.001`. -/
theorem c4_hyperparameters_roundtrip (e : Estimator) (hp : List (String × HPValue))
    (inputs : List (String × InputChannel)) (uri role : String) :
    (fit (set_hyperparameters e hp) inputs).hyperparameters = hp
    ∧ (fit (s3Estimator uri role) s3Channels).hyperparameters = notebookHyperparameters
    ∧ notebookHyperparameters =
        [("hp1", HPValue.str "value1"), ("hp2", HPValue.int 300), ("hp3", HPValue.dec 1 3)] :=
  ⟨rfl, rfl, rfl⟩

/-- C5: no local validation of the directory path: for any path string
whatsoever (absolute, relative, unnormalized, empty), construction with a
legal access mode succeeds and stores the path unchanged. -/
theorem c5_directory_path_unvalidated (fsid fstype path mode : String)
    (h : mode = "ro" ∨ mode = "rw") :
    mkFileSystemInput fsid fstype path mode = Except.ok ⟨fsid, fstype, path, mode⟩ := by
  unfold mkFileSystemInput
  simp [h]

/-- Witness for C5 at a deliberately non-normalized relative path. -/
theorem c5_directory_path_unvalidated_witness :
    mkFileSystemInput "fs-df51afdb" "EFS" "relative/../not//normalized" "ro" =
      Except.ok ⟨"fs-df51afdb", "EFS", "relative/../not//normalized", "ro"⟩ :=
  c5_directory_path_unvalidated "fs-df51afdb" "EFS" "relative/../not//normalized" "ro"
    (Or.inl rfl)

/-- C9: the S3-based and the EFS-based job specifications agree on image
reference, role, instance count 1, instance type `ml.m5.xlarge`, base job
name and hyperparameters; the S3 one sets no network placement, while the
EFS one additionally sets the subnets and security-group identifiers —
and that is the only difference. -/
theorem c9_estimators_differ_only_in_network (uri role : String) :
    (s3Estimator uri role).image_uri = uri
    ∧ (efsEstimator uri role).image_uri = uri
    ∧ (s3Estimator uri role).role = role
    ∧ (efsEstimator uri role).role = role
    ∧ (s3Estimator uri role).train_instance_count = 1
    ∧ (efsEstimator uri role).train_instance_count = 1
    ∧ (s3Estimator uri role).train_instance_type = "ml.m5.xlarge"
    ∧ (efsEstimator uri role).train_instance_type = "ml.m5.xlarge"
    ∧ (s3Estimator uri role).base_job_name = "basic-training-container"
    ∧ (efsEstimator uri role).base_job_name = "basic-training-container"
    ∧ (s3Estimator uri role).hyperparameters = notebookHyperparameters
    ∧ (efsEstimator uri role).hyperparameters = notebookHyperparameters
    ∧ (s3Estimator uri role).subnets = none
    ∧ (s3Estimator uri role).security_group_ids = none
    ∧ (efsEstimator uri role).subnets = some ["subnet-0370146357224ed30"]
    ∧ (efsEstimator uri role).security_group_ids = some ["sg-0c21b70b7f1480a4e"]
    ∧ efsEstimator uri role =
        { s3Estimator uri role with
            subnets := some subnets, security_group_ids := some security_group_ids } :=
  ⟨rfl, rfl, rfl, rfl, rfl, rfl, rfl, rfl, rfl, rfl, rfl, rfl, rfl, rfl, rfl, rfl, rfl⟩

/-- C10: the `train` and `validation` shared-filesystem channels share the
filesystem id `fs-df51afdb`, the filesystem type `EFS` and the read-only
access mode, and differ only in the directory path. -/
theorem c10_fs_channels_same_except_path :
    trainFsInput = Except.ok ⟨"fs-df51afdb", "EFS", "/LC80010022016230LGN00", "ro"⟩
    ∧ validationFsInput = Except.ok ⟨"fs-df51afdb", "EFS", "/LC80010022016246LGN00", "ro"⟩ := by
  constructor <;> rfl

/-- C6: the external build-and-push procedure is invoked with exactly the
three positional arguments account id, region, repository name, in that
order (after the script path), and no return value of the procedure is
consumed: the exit status and captured output are discarded, so any two
build results whatsoever give identical downstream behaviour.  Under a
resolved environment, the flow performs exactly one shell invocation,
namely the build command. -/
theorem c6_build_invocation (w : World) (account region repository role bucket : String) :
    build_and_push_args account region repository = [account, region, repository]
    ∧ buildCommand account region repository =
        ["../scripts/build_and_push.sh", account, region, repository]
    ∧ (w.get_execution_role = Except.ok role →
        resolveAccountId role = Except.ok account →
        w.region_name = Except.ok region →
        w.default_bucket = Except.ok bucket →
        shellCalls (flow w).1 = [buildCommand account region ecr_repository_name])
    ∧ (∀ r₁ r₂ : Nat × String,
        flow { w with build_and_push := fun _ => r₁ } =
          flow { w with build_and_push := fun _ => r₂ }) := by
  refine ⟨rfl, rfl, fun h1 h2 h3 h4 => ?_, fun r₁ r₂ => ?_⟩
  · simp only [flow, h1, h2, h3, h4, container_image_uri_eq]
    cases hc : w.create_training_job (fit (s3Estimator
        (account ++ ".dkr.ecr." ++ region ++ ".amazonaws.com/" ++
          ecr_repository_name ++ ":latest") role) s3Channels) with
    | error e => rfl
    | ok r1 =>
      have htr : trainFsInput =
          Except.ok ⟨"fs-df51afdb", "EFS", "/LC80010022016230LGN00", "ro"⟩ := rfl
      have hva : validationFsInput =
          Except.ok ⟨"fs-df51afdb", "EFS", "/LC80010022016246LGN00", "ro"⟩ := rfl
      simp only [htr, hva]
      cases hd : w.create_training_job (fit (efsEstimator
          (account ++ ".dkr.ecr." ++ region ++ ".amazonaws.com/" ++
            ecr_repository_name ++ ":latest") role)
          [("train", InputChannel.fileSystem
              ⟨"fs-df51afdb", "EFS", "/LC80010022016230LGN00", "ro"⟩),
           ("validation", InputChannel.fileSystem
              ⟨"fs-df51afdb", "EFS", "/LC80010022016246LGN00", "ro"⟩)]) with
      | error e => rfl
      | ok r2 => rfl
  · cases h1 : w.get_execution_role with
    | error e => simp only [flow, h1]
    | ok role2 =>
      cases h2 : resolveAccountId role2 with
      | error e => simp only [flow, h1, h2]
      | ok account2 =>
        cases h3 : w.region_name with
        | error e => simp only [flow, h1, h2, h3]
        | ok region2 =>
          cases h4 : w.default_bucket with
          | error e => simp only [flow, h1, h2, h3, h4]
          | ok bucket2 => simp only [flow, h1, h2, h3, h4]

/-- Witness for C6 at a fully successful concrete world; the two build
results differ in both exit status and output. -/
theorem c6_build_invocation_witness :
    shellCalls (flow okWorld).1 =
      [buildCommand "123456789012" "us-east-1" ecr_repository_name]
    ∧ flow { okWorld with build_and_push := fun _ => (0, "output-a") } =
        flow { okWorld with build_and_push := fun _ => (1, "output-b") } :=
  ⟨(c6_build_invocation okWorld "123456789012" "us-east-1" ecr_repository_name
      "arn:aws:iam::123456789012:role/SageMakerRole" "sagemaker-bucket").2.2.1
      rfl rfl rfl rfl,
    (c6_build_invocation okWorld "123456789012" "us-east-1" ecr_repository_name
      "arn:aws:iam::123456789012:role/SageMakerRole" "sagemaker-bucket").2.2.2
      (0, "output-a") (1, "output-b")⟩

/-- C7 counterexample: the claim asserts that a build-and-push failure
terminates the flow with no later stage executing.  It is false of the
code: the script runs under the IPython `!` escape with `%%capture`,
which raises nothing on a nonzero exit status, so in a world where the
build exits with status 1 the flow still composes the image URI and
performs both job submissions, finishing successfully. -/
theorem c7_build_failure_runs_on_counterexample :
    (buildFailWorld.build_and_push
        (buildCommand "123456789012" "us-east-1" ecr_repository_name)).1 = 1
    ∧ flow buildFailWorld =
        ([Call.getRole, Call.getRegion, Call.getBucket,
          Call.shell (buildCommand "123456789012" "us-east-1" ecr_repository_name),
          Call.submit (fit (s3Estimator
            "123456789012.dkr.ecr.us-east-1.amazonaws.com/sagemaker-training-containers/basic-training-container:latest"
            "arn:aws:iam::123456789012:role/SageMakerRole") s3Channels),
          Call.submit (fit (efsEstimator
            "123456789012.dkr.ecr.us-east-1.amazonaws.com/sagemaker-training-containers/basic-training-container:latest"
            "arn:aws:iam::123456789012:role/SageMakerRole")
            [("train", InputChannel.fileSystem
                ⟨"fs-df51afdb", "EFS", "/LC80010022016230LGN00", "ro"⟩),
             ("validation", InputChannel.fileSystem
                ⟨"fs-df51afdb", "EFS", "/LC80010022016246LGN00", "ro"⟩)])],
         Except.ok "Completed") :=
  ⟨rfl, rfl⟩

/-- C7 (amended): a failure of an external call that surfaces as a Python
exception — credential resolution, region lookup, bucket lookup, or
remote job submission — propagates verbatim as the result of the whole
flow, and the recorded trace shows that no later external call is
performed after the failing one.  The build-and-push shell call is
excluded: it cannot raise, its exit status and output are discarded, and
the flow is insensitive to its result. -/
theorem c7_failures_propagate_amended (w : World) (e : String) :
    (w.get_execution_role = Except.error e → flow w = ([Call.getRole], Except.error e))
    ∧ (∀ role account, w.get_execution_role = Except.ok role →
        resolveAccountId role = Except.ok account →
        w.region_name = Except.error e →
        flow w = ([Call.getRole, Call.getRegion], Except.error e))
    ∧ (∀ role account region, w.get_execution_role = Except.ok role →
        resolveAccountId role = Except.ok account →
        w.region_name = Except.ok region →
        w.default_bucket = Except.error e →
        flow w = ([Call.getRole, Call.getRegion, Call.getBucket], Except.error e))
    ∧ (∀ r₁ r₂ : Nat × String,
        flow { w with build_and_push := fun _ => r₁ } =
          flow { w with build_and_push := fun _ => r₂ })
    ∧ (∀ role account region bucket, w.get_execution_role = Except.ok role →
        resolveAccountId role = Except.ok account →
        w.region_name = Except.ok region →
        w.default_bucket = Except.ok bucket →
        w.create_training_job
          (fit (s3Estimator
              (account ++ ".dkr.ecr." ++ region ++ ".amazonaws.com/" ++
                ecr_repository_name ++ ":latest") role) s3Channels) = Except.error e →
        flow w = ([Call.getRole, Call.getRegion, Call.getBucket,
          Call.shell (buildCommand account region ecr_repository_name),
          Call.submit (fit (s3Estimator
              (account ++ ".dkr.ecr." ++ region ++ ".amazonaws.com/" ++
                ecr_repository_name ++ ":latest") role) s3Channels)], Except.error e)) := by
  refine ⟨fun h => ?_, fun role account h1 h2 h3 => ?_,
    fun role account region h1 h2 h3 h4 => ?_, fun r₁ r₂ => ?_,
    fun role account region bucket h1 h2 h3 h4 h5 => ?_⟩
  · simp only [flow, h]
  · simp only [flow, h1, h2, h3]
  · simp only [flow, h1, h2, h3, h4]
  · cases h1 : w.get_execution_role with
    | error e2 => simp only [flow, h1]
    | ok role2 =>
      cases h2 : resolveAccountId role2 with
      | error e2 => simp only [flow, h1, h2]
      | ok account2 =>
        cases h3 : w.region_name with
        | error e2 => simp only [flow, h1, h2, h3]
        | ok region2 =>
          cases h4 : w.default_bucket with
          | error e2 => simp only [flow, h1, h2, h3, h4]
          | ok bucket2 => simp only [flow, h1, h2, h3, h4]
  · simp only [flow, h1, h2, h3, h4, container_image_uri_eq, h5]

/-- Witness for C7 (amended): a failing credential lookup halts the flow
at once; a failing submission halts it right there; and two arbitrary
build results leave the flow identical. -/
theorem c7_failures_propagate_amended_witness :
    flow roleErrWorld = ([Call.getRole], Except.error "NoCredentialsError")
    ∧ flow submitErrWorld = ([Call.getRole, Call.getRegion, Call.getBucket,
        Call.shell (buildCommand "123456789012" "us-east-1" ecr_repository_name),
        Call.submit (fit (s3Estimator
            ("123456789012" ++ ".dkr.ecr." ++ "us-east-1" ++ ".amazonaws.com/" ++
              ecr_repository_name ++ ":latest")
            "arn:aws:iam::123456789012:role/SageMakerRole") s3Channels)],
        Except.error "ClientError")
    ∧ flow { okWorld with build_and_push := fun _ => (2, "fatal error") } =
        flow { okWorld with build_and_push := fun _ => (0, "pushed") } :=
  ⟨(c7_failures_propagate_amended roleErrWorld "NoCredentialsError").1 rfl,
    (c7_failures_propagate_amended submitErrWorld "ClientError").2.2.2.2
      "arn:aws:iam::123456789012:role/SageMakerRole" "123456789012" "us-east-1"
      "sagemaker-bucket" rfl rfl rfl rfl rfl,
    (c7_failures_propagate_amended okWorld "unused").2.2.2.1
      (2, "fatal error") (0, "pushed")⟩

/-- C8: the account identifier is the fifth colon-separated field (index 4)
of the execution-role ARN; when the role string has fewer than five
colon-separated fields the derivation fails with an index error, and the
flow stops there: no shell call and no submission is ever performed. -/
theorem c8_account_id_fifth_field (role account : String) (w : World) :
    ((pySplitColon role)[4]? = some account → resolveAccountId role = Except.ok account)
    ∧ ((pySplitColon role).length < 5 →
        resolveAccountId role = Except.error "IndexError"
        ∧ (w.get_execution_role = Except.ok role →
            flow w = ([Call.getRole], Except.error "IndexError"))) := by
  constructor
  · intro h
    unfold resolveAccountId
    rw [h]
  · intro hlen
    have hnone : (pySplitColon role)[4]? = none := by
      rw [List.getElem?_eq_none]
      omega
    have hres : resolveAccountId role = Except.error "IndexError" := by
      unfold resolveAccountId
      rw [hnone]
    refine ⟨hres, fun hrole => ?_⟩
    simp only [flow, hrole, hres]

/-- Witness for C8 at the three-field role string `arn:aws:iam`. -/
theorem c8_account_id_fifth_field_witness :
    resolveAccountId "arn:aws:iam::123456789012:role/SageMakerRole" =
      Except.ok "123456789012"
    ∧ resolveAccountId "arn:aws:iam" = Except.error "IndexError"
    ∧ flow shortRoleWorld = ([Call.getRole], Except.error "IndexError") :=
  ⟨(c8_account_id_fifth_field "arn:aws:iam::123456789012:role/SageMakerRole"
      "123456789012" shortRoleWorld).1 (by decide),
    ((c8_account_id_fifth_field "arn:aws:iam" "" shortRoleWorld).2 (by decide)).1,
    ((c8_account_id_fifth_field "arn:aws:iam" "" shortRoleWorld).2 (by decide)).2 rfl⟩

end Notebook
